import Mathlib

/-!
# Verification of the limit-up theme review pipeline (`src/app.py`)

Shallow embedding of the data-processing core of `app.py`:

* `clean_money`            — `app.py` lines 50–54
* board-count conversion   — `app.py` line 63 (`pd.to_numeric(..., errors='coerce').fillna(1).astype(int)`)
* theme fill               — `app.py` line 68 (`fillna("其他")`)
* whole pipeline           — `get_zt_data_processed`, lines 26–92
* leader highlight         — `app.py` lines 189–192 (dead code, see below)

A central fact of this revision of the source: the named aggregation at
lines 71–76 creates the column `总成交额` (no `(亿)` suffix), but line 81
reads `theme_stats['总成交额(亿)']` — a column that does not exist — so the
theme branch always raises `KeyError` and the handler (lines 90–92) returns
the pair of empty frames.  The sort at line 84 and the theme loop, roster
sort and leader highlight at lines 169–205 are therefore unreachable; the
only non-empty return is the no-theme branch at line 88.

Cell values of the raw pandas table are modelled by `RawVal`: a number, a
string, or a missing value (`na`, pandas `NaN`/`None`).  Monetary arithmetic
is modelled over `ℚ` (binary-float rounding error is out of scope; in
particular a float `NaN` inside a numeric column, which pandas would
propagate through `clean_money`, is not modelled — `na` stands for a missing
cell).  Column absence (the unstable upstream schema) is table-level, as in
pandas: the `has…` flags of `RawTable` record which of the columns named in
`needed_cols` the fetched table actually has.
-/

/-- A scalar cell of the raw table: numeric, string, or missing. -/
inductive RawVal where
  | num (q : ℚ)
  | str (s : String)
  | na
deriving DecidableEq

/-- One raw row with a cell for every column of `needed_cols`
(`代码 名称 最新价 涨跌幅 成交额 流通市值 换手率 连板数 封板资金 涨停原因类别`).
A cell is only meaningful when the table-level flag says the column exists. -/
structure RawRow where
  code : RawVal
  name : RawVal
  price : RawVal
  pct : RawVal
  amount : RawVal
  mktcap : RawVal
  turnrate : RawVal
  board : RawVal
  sealAmt : RawVal
  theme : RawVal
deriving DecidableEq

/-- The fetched table: which of the needed columns are present, plus rows. -/
structure RawTable where
  hasCode : Bool
  hasName : Bool
  hasPrice : Bool
  hasPct : Bool
  hasAmount : Bool
  hasMktCap : Bool
  hasTurnRate : Bool
  hasBoard : Bool
  hasSeal : Bool
  hasTheme : Bool
  rows : List RawRow
deriving DecidableEq

/-- Function `clean_money` (`app.py` 50–54): numeric values are divided by 1e8
(`亿` units); anything that is not an `int`/`float` instance — every string,
whatever it contains — falls through to `return 0.0`. -/
def clean_money : RawVal → ℚ
  | .num q => q / 100000000
  | _ => 0

/-- Value of a non-empty digit list read in base 10. -/
def digitsToNat (cs : List Char) : Nat :=
  cs.foldl (fun n c => 10 * n + (c.toNat - Char.toNat '0')) 0

/-- Unsigned decimal-numeral parser: digits, optionally a point and more
digits, at least one digit overall, nothing else.  Models the numeral core
of `pd.to_numeric(..., errors='coerce')` on a string cell; strings with any
other character (for example the `"2/2"` composite encoding, or a unit
suffix such as `"亿"`) do not parse. -/
def parseNumericCore (cs : List Char) : Option ℚ :=
  let ip := cs.takeWhile Char.isDigit
  let rest := cs.dropWhile Char.isDigit
  match rest with
  | [] => if ip = [] then none else some (digitsToNat ip : ℚ)
  | '.' :: rest2 =>
    let fp := rest2.takeWhile Char.isDigit
    let rest3 := rest2.dropWhile Char.isDigit
    if rest3 = [] ∧ ¬(ip = [] ∧ fp = []) then
      some ((digitsToNat ip : ℚ) + (digitsToNat fp : ℚ) / (10 ^ fp.length))
    else none
  | _ => none

/-- Cell-wise `pd.to_numeric(..., errors='coerce')`: numbers pass through,
missing cells stay missing (`NaN`), strings are parsed as signed decimal
numerals (`none` = coerced to `NaN`). -/
def toNumeric : RawVal → Option ℚ
  | .num q => some q
  | .na => none
  | .str s =>
    match s.data with
    | '-' :: cs => (parseNumericCore cs).map (fun q => -q)
    | '+' :: cs => parseNumericCore cs
    | cs => parseNumericCore cs

/-- Truncation toward zero, the semantics of `.astype(int)` on a float. -/
def ratTrunc (q : ℚ) : Int :=
  q.num.tdiv (q.den : Int)

/-- Line 63 of `app.py`: `pd.to_numeric(df['连板数'], errors='coerce').fillna(1).astype(int)`
applied to one cell. -/
def toBoardCount (v : RawVal) : Int :=
  ratTrunc ((toNumeric v).getD 1)

/-- Line 68 of `app.py`: `df['题材'].fillna("其他")` applied to one cell. -/
def fillTheme : RawVal → RawVal
  | .na => .str "其他"
  | v => v

/-- A row after field selection, renaming and enrichment (`app.py` 46–68).
`none` marks a column the raw table did not have (and which therefore is
absent from the enriched frame as well); `board` (`连板数`) is always created
by line 63 — when the raw column is missing that line raises instead, so an
`EnrichedRow` only ever exists with a genuine board count. -/
structure EnrichedRow where
  code : Option RawVal
  name : Option RawVal
  price : Option RawVal
  pct : Option RawVal
  mktcap : Option RawVal
  turnrate : Option RawVal
  amount : Option RawVal
  sealAmt : Option RawVal
  amountY : Option ℚ
  sealY : Option ℚ
  board : Int
  theme : Option RawVal
deriving DecidableEq

/-- Enrichment of a single row (`app.py` 46–68): select the available
columns, derive `成交额(亿)`/`封板资金(亿)` via `clean_money`, coerce
`连板数`, fill missing themes with `其他`. -/
def enrichRow (t : RawTable) (r : RawRow) : EnrichedRow where
  code := if t.hasCode then some r.code else none
  name := if t.hasName then some r.name else none
  price := if t.hasPrice then some r.price else none
  pct := if t.hasPct then some r.pct else none
  mktcap := if t.hasMktCap then some r.mktcap else none
  turnrate := if t.hasTurnRate then some r.turnrate else none
  amount := if t.hasAmount then some r.amount else none
  sealAmt := if t.hasSeal then some r.sealAmt else none
  amountY := if t.hasAmount then some (clean_money r.amount) else none
  sealY := if t.hasSeal then some (clean_money r.sealAmt) else none
  board := toBoardCount r.board
  theme := if t.hasTheme then some (fillTheme r.theme) else none

/-- One row of the transient `theme_stats` frame as of line 80 of `app.py`
(columns `题材, 涨停家数, 总成交额, 平均连板, 高标高度, 家数占比(%)` — the
sum column created by the agg at line 73 is named `总成交额`, with no
`(亿)` suffix).  This frame is computed by lines 71–80 but never escapes
the function: line 81 reads the nonexistent column `总成交额(亿)` and
raises, so every `theme_stats` the caller observes is empty. -/
structure ThemeSummary where
  theme : RawVal
  stockCount : Nat
  total : ℚ
  avgBoard : ℚ
  maxBoard : Int
  sharePct : ℚ
deriving DecidableEq

/-- The body of `get_zt_data_processed` (`app.py` 26–92) with each raised
exception made explicit.  `df.empty` is checked first (line 33); line 63
reads `df['连板数']` unconditionally, so a missing `连板数` column raises.
In the theme branch the `groupby(...).agg` of lines 71–76 reads `名称` and
`成交额(亿)` unconditionally (raising when absent) and names its sum column
`总成交额`; line 81 then reads `theme_stats['总成交额(亿)']` — a column
that does not exist — so even with every column present the theme branch
always raises `KeyError` at line 81 and never returns: the transient
aggregates of lines 71–80 are discarded and the sort of line 84 is
unreachable.  Only the no-theme branch (line 88) returns a non-empty
result: the per-stock frame with an empty `theme_stats`. -/
def processTable (t : RawTable) : Except String (List EnrichedRow × List ThemeSummary) :=
  if t.rows = [] then .ok ([], [])
  else if t.hasBoard then
    let rows := t.rows.map (enrichRow t)
    if t.hasTheme then
      if t.hasName then
        if t.hasAmount then .error "KeyError: 总成交额(亿)"
        else .error "KeyError: 成交额(亿)"
      else .error "KeyError: 名称"
    else .ok (rows, [])
  else .error "KeyError: 连板数"

/-- Function `get_zt_data_processed` as observed by the caller: the surrounding
`try/except` (lines 30, 90–92) turns every raised exception into the pair
of empty frames. -/
def get_zt_data_processed (t : RawTable) : List EnrichedRow × List ThemeSummary :=
  match processTable t with
  | .ok p => p
  | .error _ => ([], [])

/-- The `is_leader` predicate of `highlight_leader` (`app.py` 189–192): a
row would be highlighted iff its `连板数` equals the theme's `高标高度`
(`high_board`).  Dead code: the enclosing loop iterates over `df_themes`,
which is always empty (the line-81 KeyError), so the program never
evaluates this predicate. -/
def highlight_leader (high_board : Int) (r : EnrichedRow) : Bool :=
  r.board == high_board

/-! ## Helper lemmas -/

/-- Whenever `processTable` returns normally, its per-stock frame is the
row-wise enrichment of the raw frame. -/
lemma processTable_ok_fst {t : RawTable} {p : List EnrichedRow × List ThemeSummary}
    (h : processTable t = .ok p) : p.1 = t.rows.map (enrichRow t) := by
  unfold processTable at h
  split at h
  · rename_i he
    injection h with h1
    subst h1
    simp [he]
  · split at h
    · split at h
      · split at h
        · split at h
          · cases h
          · cases h
        · cases h
      · injection h with h1
        subst h1
        rfl
    · cases h

/-- Success of `processTable` without a theme column: per-stock frame plus
an empty `theme_stats` (line 88). -/
lemma processTable_ok_no_theme {t : RawTable} (hne : t.rows ≠ []) (hb : t.hasBoard = true)
    (hth : t.hasTheme = false) :
    processTable t = .ok (t.rows.map (enrichRow t), []) := by
  unfold processTable
  simp [hne, hb, hth]

/-- A missing `连板数` column raises at line 63 and the handler returns the
empty pair. -/
lemma get_zt_empty_of_no_board {t : RawTable} (hne : t.rows ≠ []) (hb : t.hasBoard = false) :
    get_zt_data_processed t = ([], []) := by
  unfold get_zt_data_processed processTable
  simp [hne, hb]

/-- Any non-empty table with the theme column present makes the pipeline
return the empty pair: either the agg of lines 71–76 raises (missing `名称`
or `成交额(亿)` source column, or missing `连板数` at line 63), or line 81
raises on the nonexistent `总成交额(亿)` column. -/
lemma get_zt_empty_of_theme {t : RawTable} (hne : t.rows ≠ []) (hth : t.hasTheme = true) :
    get_zt_data_processed t = ([], []) := by
  unfold get_zt_data_processed processTable
  cases hb : t.hasBoard <;> cases hn : t.hasName <;> cases ha : t.hasAmount <;>
    simp [hne, hth, hb, hn, ha]

/-- A missing or unparseable `连板数` cell becomes the default `1`
(`errors='coerce'` then `fillna(1)`). -/
lemma enrichRow_board_default (t : RawTable) (r : RawRow) (h : toNumeric r.board = none) :
    (enrichRow t r).board = 1 := by
  show toBoardCount r.board = 1
  unfold toBoardCount
  rw [h]
  rfl

/-- A numeric `连板数` cell is passed through (truncated to an integer by
`astype(int)`), with no lower bound imposed. -/
lemma enrichRow_board_num (t : RawTable) (r : RawRow) (q : ℚ) (h : r.board = .num q) :
    (enrichRow t r).board = ratTrunc q := by
  show toBoardCount r.board = ratTrunc q
  rw [h]
  rfl

/-- When the theme column exists, every enriched row carries the filled
theme cell. -/
lemma enrichRow_theme_some (t : RawTable) (r : RawRow) (h : t.hasTheme = true) :
    (enrichRow t r).theme = some (fillTheme r.theme) := by
  simp [enrichRow, h]

/-! ## Concrete sample data used by counterexamples and witnesses -/

/-- A raw row with fixed innocuous cells for the columns that play no role
in a given scenario; name, board count and theme are the varying inputs. -/
def sampleRaw (nm bd th : RawVal) : RawRow where
  code := .str "000001"
  name := nm
  price := .num 10
  pct := .num 10
  amount := .num 150000000
  mktcap := .num 2000000000
  turnrate := .num 5
  board := bd
  sealAmt := .num 80000000
  theme := th

/-- A fetched table carrying every needed column. -/
def fullTable (rs : List RawRow) : RawTable where
  hasCode := true
  hasName := true
  hasPrice := true
  hasPct := true
  hasAmount := true
  hasMktCap := true
  hasTurnRate := true
  hasBoard := true
  hasSeal := true
  hasTheme := true
  rows := rs

/-- Two stocks of one theme, a 3-board leader and a first board. -/
def demoTable : RawTable :=
  fullTable [sampleRaw (.str "甲") (.num 3) (.str "X"), sampleRaw (.str "乙") (.num 1) (.str "X")]

/-- One stock whose `名称` cell is null. -/
def naTable : RawTable := fullTable [sampleRaw .na (.num 2) (.str "X")]

/-- A table whose `涨停原因类别` column is absent. -/
def noThemeTable : RawTable :=
  { fullTable [sampleRaw (.str "丙") (.num 2) (.str "Y")] with hasTheme := false }

/-- A table whose `连板数` column is absent. -/
def noBoardTable : RawTable :=
  { fullTable [sampleRaw (.str "丁") (.num 2) (.str "Y")] with hasBoard := false }

/-- A no-theme table additionally missing every guarded column
(`封板资金`, `成交额`, `最新价`, `流通市值`, `换手率`). -/
def noSealTable : RawTable :=
  { fullTable [sampleRaw (.str "戊") (.num 2) (.str "Z")] with
      hasTheme := false, hasSeal := false, hasAmount := false,
      hasPrice := false, hasMktCap := false, hasTurnRate := false }

/-- One themed stock at board 1 — the single-day case the claim describes. -/
def c1table : RawTable := fullTable [sampleRaw (.str "己") (.num 1) (.str "W")]

/-- One themed stock, input for the dead roster path. -/
def c8table : RawTable := fullTable [sampleRaw (.str "癸") (.num 2) (.str "V")]

/-! ## Claims -/

/-- C1 (code bug): the leader flag the claim describes is never computed.
With the theme column present the pipeline raises `KeyError` at line 81
(reading `总成交额(亿)` where the agg created `总成交额`) and returns the
empty pair, so `df_themes` is always empty and `highlight_leader` (which
moreover compares `连板数 == high_board` with no `maxBoard ≥ 2` guard)
never runs.  At `c1table` — one themed board-1 stock, the claim's
single-day case — the whole output is empty. -/
theorem C1_theme_branch_empty :
    c1table.rows ≠ [] ∧ c1table.hasTheme = true
    ∧ get_zt_data_processed c1table = ([], []) := by
  decide

/-- C2 counterexample: `clean_money` returns 0 on the decorated string
`"2.35亿"` instead of the claimed 2.35 — no unit suffix is ever stripped. -/
theorem C2_counterexample : ¬ (clean_money (.str "2.35亿") = 235 / 100) := by
  intro h
  rw [show clean_money (.str "2.35亿") = 0 from rfl] at h
  norm_num at h

/-- C2 (amended): `clean_money` divides every numeric input by 1e8 (so the
raw turnover 123456789.0 becomes 1.23456789 exactly, and `"garbage"` maps
to 0.0 as claimed), but it never parses unit-suffixed strings: every string
input — `"2.35亿"` and `"5800万"` included — returns 0.0, and missing cells
return 0.0 as well. -/
theorem C2_clean_money_amended :
    (∀ q : ℚ, clean_money (.num q) = q / 100000000)
    ∧ clean_money (.num 123456789) = 123456789 / 100000000
    ∧ (∀ s : String, clean_money (.str s) = 0)
    ∧ clean_money (.str "2.35亿") = 0
    ∧ clean_money (.str "5800万") = 0
    ∧ clean_money (.str "garbage") = 0
    ∧ clean_money .na = 0 :=
  ⟨fun _ => rfl, rfl, fun _ => rfl, rfl, rfl, rfl, rfl⟩

/-- C3 counterexample: on a table with no theme candidate column the
pipeline leaves every record without any theme value (no "unclassified"
sentinel is synthesized), refuting "resolves every record's theme to a
synthesized constant default value". -/
theorem C3_counterexample :
    ¬ (∀ r ∈ (get_zt_data_processed noThemeTable).1, r.theme.isSome = true) := by
  decide

/-- C3 (amended): when no theme candidate column is present the pipeline
still never raises — it returns the enriched per-stock frame unchanged —
but no default theme is synthesized: every record's theme is absent and the
theme summary is empty (so the pipeline does NOT produce a theme for every
enriched record). -/
theorem C3_no_theme_amended (t : RawTable) (hne : t.rows ≠ []) (hb : t.hasBoard = true)
    (hth : t.hasTheme = false) :
    get_zt_data_processed t = (t.rows.map (enrichRow t), [])
    ∧ ∀ r ∈ (get_zt_data_processed t).1, r.theme = none := by
  have h := processTable_ok_no_theme hne hb hth
  have h2 : get_zt_data_processed t = (t.rows.map (enrichRow t), []) := by
    unfold get_zt_data_processed
    rw [h]
  refine ⟨h2, ?_⟩
  rw [h2]
  intro r hr
  rcases List.mem_map.mp hr with ⟨r0, _, he⟩
  rw [← he]
  simp [enrichRow, hth]

/-- C3 witness: the amended behaviour at `noThemeTable`. -/
theorem C3_no_theme_witness :
    noThemeTable.hasTheme = false
    ∧ get_zt_data_processed noThemeTable
        = (noThemeTable.rows.map (enrichRow noThemeTable), []) :=
  ⟨rfl, (C3_no_theme_amended noThemeTable (by decide) rfl rfl).1⟩

/-- C4 (code bug): no sorted ThemeSummary sequence is ever produced — the
line-84 sort (which does implement the claimed descending lexicographic
order on (`涨停家数`, `总成交额(亿)`)) is unreachable, because line 81
raises `KeyError` first; at `demoTable` (two themed stocks) the pipeline
returns the empty pair. -/
theorem C4_no_sorted_stats :
    demoTable.rows ≠ [] ∧ demoTable.hasTheme = true
    ∧ get_zt_data_processed demoTable = ([], []) := by
  decide

/-- C5 (code bug): the aggregation's partition of the enriched records
never reaches the caller.  At `naTable` (one raw row, theme column
present) the theme branch raises at line 81 and both output frames are
empty: no ThemeSummary row, hence no stockCount, is ever emitted for any
input. -/
theorem C5_no_summaries :
    naTable.rows.length = 1
    ∧ get_zt_data_processed naTable = ([], []) := by
  decide

/-- A raw row whose `连板数` cell carries the composite `"2/2"` encoding. -/
def c6row : RawRow := sampleRaw (.str "庚") (.str "2/2") (.str "Z")

/-- C6 counterexample: `pd.to_numeric` coerces the composite `"2/2"` to
null, so the enriched board count is the default 1, not the numerator 2. -/
theorem C6_counterexample :
    (enrichRow (fullTable [c6row]) c6row).board = 1
    ∧ ¬ ((enrichRow (fullTable [c6row]) c6row).board = 2) := by
  decide

/-- C6 (amended): a composite "current/total" cell such as `"2/2"` is not
parsed for its numerator — like every other value `pd.to_numeric` cannot
coerce, it falls back to the default 1; numeric cells pass through
truncated to integers. -/
theorem C6_board_amended :
    (∀ (t : RawTable) (r : RawRow), toNumeric r.board = none → (enrichRow t r).board = 1)
    ∧ toNumeric (.str "2/2") = none
    ∧ (∀ (t : RawTable) (r : RawRow) (q : ℚ), r.board = .num q →
        (enrichRow t r).board = ratTrunc q) :=
  ⟨fun t r h => enrichRow_board_default t r h, by decide,
    fun t r q h => enrichRow_board_num t r q h⟩

/-- C6 witness: the default at the composite cell `"2/2"`. -/
theorem C6_board_witness :
    toNumeric c6row.board = none ∧ (enrichRow (fullTable [c6row]) c6row).board = 1 :=
  ⟨by decide, C6_board_amended.1 (fullTable [c6row]) c6row (by decide)⟩

/-- A raw row with a numeric 0 board cell and an empty-string theme cell. -/
def c7row : RawRow := sampleRaw (.str "辛") (.num 0) (.str "")

/-- C7 counterexample: a raw numeric `连板数` of 0 survives enrichment as
0 (< 1), and an empty-string theme cell stays the empty string, refuting
"theme non-empty and `consecutiveBoardCount ≥ 1` regardless of the raw
input values". -/
theorem C7_counterexample :
    (enrichRow (fullTable [c7row]) c7row).board = 0
    ∧ (enrichRow (fullTable [c7row]) c7row).theme = some (.str "")
    ∧ ¬ (1 ≤ (enrichRow (fullTable [c7row]) c7row).board) := by
  decide

/-- C7 (amended): when the theme column exists every enriched record
carries a theme value, with null cells defaulted to `其他` (but an
empty-string cell is kept verbatim); the board count defaults to 1 only
when the raw cell is unparseable — numeric raw cells pass through
truncation unclamped, so values below 1 are possible. -/
theorem C7_invariant_amended (t : RawTable) (r : RawRow) (hth : t.hasTheme = true) :
    (enrichRow t r).theme = some (fillTheme r.theme)
    ∧ fillTheme .na = .str "其他"
    ∧ (toNumeric r.board = none → (enrichRow t r).board = 1)
    ∧ (r.board = .na → 1 ≤ (enrichRow t r).board) := by
  refine ⟨enrichRow_theme_some t r hth, rfl, fun h => enrichRow_board_default t r h, fun h => ?_⟩
  rw [enrichRow_board_default t r (by rw [h]; rfl)]

/-- C7 witness: a row with null theme and null board cells resolves to
theme `其他` and board 1. -/
theorem C7_invariant_witness :
    (fullTable [sampleRaw (.str "壬") .na .na]).hasTheme = true
    ∧ (enrichRow (fullTable [sampleRaw (.str "壬") .na .na])
          (sampleRaw (.str "壬") .na .na)).theme
        = some (fillTheme (sampleRaw (.str "壬") .na .na).theme) :=
  ⟨rfl, (C7_invariant_amended (fullTable [sampleRaw (.str "壬") .na .na])
      (sampleRaw (.str "壬") .na .na) rfl).1⟩

/-- C8 (code bug): no per-theme roster is ever built — the roster loop of
lines 169–205 iterates over `df_themes`, which is always empty because the
theme branch raises at line 81; at `c8table` the output is the empty pair.
(Had the loop run, line 181's `sort_values` would itself raise whenever
the `封板资金(亿)` column is absent.) -/
theorem C8_no_roster :
    c8table.rows ≠ [] ∧ c8table.hasTheme = true
    ∧ get_zt_data_processed c8table = ([], []) := by
  decide

/-- C9 counterexample: `noBoardTable` has one raw row but no `连板数`
column; line 63 raises, the handler returns the empty pair, so schema drift
on the consecutive-board-count column DOES yield empty output instead of a
per-record default. -/
theorem C9_counterexample :
    get_zt_data_processed noBoardTable = ([], []) ∧ noBoardTable.rows ≠ [] := by
  decide

/-- C9 (amended): schema drift never escapes as an exception (the handler
catches everything), but processing does not complete with per-record
defaults: a missing `连板数` column yields the empty pair (first conjunct);
any table with the theme column present yields the empty pair regardless
of drift, because line 81 always raises there (second conjunct); only the
no-theme branch completes (third conjunct), and there a missing monetary
column is simply omitted from the enriched frame — `amountY`/`sealY`
absent, not defaulted to 0.0 (fourth and fifth conjuncts). -/
theorem C9_drift_amended (t : RawTable) (hne : t.rows ≠ []) :
    (t.hasBoard = false → get_zt_data_processed t = ([], []))
    ∧ (t.hasTheme = true → get_zt_data_processed t = ([], []))
    ∧ (t.hasBoard = true → t.hasTheme = false →
        get_zt_data_processed t = (t.rows.map (enrichRow t), []))
    ∧ (t.hasBoard = true → t.hasTheme = false → t.hasAmount = false →
        ∀ r ∈ (get_zt_data_processed t).1, r.amountY = none)
    ∧ (t.hasBoard = true → t.hasTheme = false → t.hasSeal = false →
        ∀ r ∈ (get_zt_data_processed t).1, r.sealY = none) := by
  have hok : ∀ (hb : t.hasBoard = true) (hth : t.hasTheme = false),
      get_zt_data_processed t = (t.rows.map (enrichRow t), []) := by
    intro hb hth
    unfold get_zt_data_processed
    rw [processTable_ok_no_theme hne hb hth]
  refine ⟨fun hb => get_zt_empty_of_no_board hne hb,
    fun hth => get_zt_empty_of_theme hne hth,
    hok, fun hb hth ham => ?_, fun hb hth hs => ?_⟩
  · rw [hok hb hth]
    intro r hr
    rcases List.mem_map.mp hr with ⟨r0, _, he⟩
    rw [← he]
    simp [enrichRow, ham]
  · rw [hok hb hth]
    intro r hr
    rcases List.mem_map.mp hr with ⟨r0, _, he⟩
    rw [← he]
    simp [enrichRow, hs]

/-- C9 witness: `noSealTable` (no theme column; `封板资金`, `成交额` and
the display columns missing) still completes, with the missing monetary
columns omitted rather than defaulted. -/
theorem C9_drift_witness :
    noSealTable.rows ≠ []
    ∧ noSealTable.hasSeal = false
    ∧ get_zt_data_processed noSealTable
        = (noSealTable.rows.map (enrichRow noSealTable), [])
    ∧ ∀ r ∈ (get_zt_data_processed noSealTable).1, r.sealY = none :=
  ⟨by decide, rfl, (C9_drift_amended noSealTable (by decide)).2.2.1 rfl rfl,
    (C9_drift_amended noSealTable (by decide)).2.2.2.2 rfl rfl rfl⟩

/-- C10: whenever processing completes on a non-empty fetched table, the
enriched frame is exactly the row-wise enrichment of the raw frame — one
row per raw row, in order — and each selected pass-through display column
(`最新价`, `涨跌幅`, `换手率`) keeps its raw cell values unchanged. -/
theorem C10_frame_preservation (t : RawTable) (p : List EnrichedRow × List ThemeSummary)
    (hok : processTable t = .ok p) (_hne : t.rows ≠ []) :
    p.1.length = t.rows.length
    ∧ p.1 = t.rows.map (enrichRow t)
    ∧ (t.hasPrice = true → p.1.map (fun r => r.price) = t.rows.map (fun r => some r.price))
    ∧ (t.hasPct = true → p.1.map (fun r => r.pct) = t.rows.map (fun r => some r.pct))
    ∧ (t.hasTurnRate = true →
        p.1.map (fun r => r.turnrate) = t.rows.map (fun r => some r.turnrate)) := by
  have h1 := processTable_ok_fst hok
  refine ⟨by rw [h1, List.length_map], h1, fun hp => ?_, fun hp => ?_, fun hp => ?_⟩
  all_goals rw [h1, List.map_map]
  all_goals exact List.map_congr_left (fun r _ => by simp [Function.comp, enrichRow, hp])

/-- C10 witness: frame preservation at `noThemeTable`, the branch on which
processing completes. -/
theorem C10_frame_witness :
    processTable noThemeTable
        = .ok (noThemeTable.rows.map (enrichRow noThemeTable), [])
    ∧ (noThemeTable.rows.map (enrichRow noThemeTable),
          ([] : List ThemeSummary)).1.length
        = noThemeTable.rows.length :=
  ⟨rfl, (C10_frame_preservation noThemeTable _ rfl (by decide)).1⟩
